import Mathlib

/-!
Verification of the fan-out query dispatcher in
`msticpy/data/core/query_provider_connections_mixin.py`.

The embedding models result sets as lists of rows (a row is a `Nat`), machine
timestamps and `pd.Timedelta` values as integer nanosecond counts (pandas
stores both as 64-bit nanosecond integers; no arithmetic here approaches the
64-bit range, so plain `Int` is faithful), and a raised Python exception that
escapes a function as an `Option`/`Except` error value.  Concurrency is made
explicit: a completion order of a batch of threaded tasks is a list `perm`
of task indices, where `perm[k]` is the index (in submission order) of the
task whose completion is observed `k`-th by `asyncio.as_completed`.
-/

/-- Rows of one result set (one `pd.DataFrame`); concatenation of frames is
list append on their rows. -/
abbrev Res := List Nat

/-- Outcome of invoking one query task: a result, a raised
`MsticpyDataQueryError`, or any other raised exception. -/
inductive QueryOutcome where
  | ok (rows : Res)
  | queryError
  | otherError
deriving DecidableEq, Repr

/-- `true` when the outcome is a raised exception of either kind. -/
def QueryOutcome.isFailure : QueryOutcome → Bool
  | .ok _ => false
  | .queryError => true
  | .otherError => true

/-- One entry of the `query_tasks` dict: its key (the task identifier) and
the behaviour of its zero-argument partial on the first invocation (`out1`)
and on a second invocation during a retry round (`out2`).  Identifiers are
dict keys in the source, hence unique within a batch. -/
structure QueryTask where
  id : String
  out1 : QueryOutcome
  out2 : QueryOutcome
deriving DecidableEq, Repr

/-! ## Sequential executor: `_exec_synchronous_queries` (lines 360-381)

Iterates the task dict in insertion order.  `MsticpyDataQueryError` is caught
and the task skipped; any other exception escapes the `for` loop and aborts
the remaining tasks.  `tqdm` wrapping does not change iteration order and is
not modelled. -/

/-- The `for con_name, query_task in query_iter` loop with its `try/except
MsticpyDataQueryError` body.  `Except.error ()` models an exception that
propagates to the caller. -/
def syncLoop : List QueryTask → List Res → Except Unit (List Res)
  | [], acc => .ok acc
  | t :: ts, acc =>
    match t.out1 with
    | .ok r => syncLoop ts (acc ++ [r])
    | .queryError => syncLoop ts acc
    | .otherError => .error ()

/-- `_exec_synchronous_queries`: run the loop, then `pd.concat(results)` when
any result was collected, else an explicit empty `pd.DataFrame()` (row-wise
both are the concatenation of the collected lists). -/
def execSynchronousQueries (tasks : List QueryTask) : Except Unit Res :=
  (syncLoop tasks []).map List.flatten

/-! ## Threaded executor: `_exec_queries_threaded` (lines 418-484)

The source builds `thread_tasks : dict[str, Future]` (same keys, submission
order), then `ids_and_tasks = dict(zip(thread_tasks, task_iter))` where
`task_iter = asyncio.as_completed(thread_tasks.values())`, i.e. the k-th key
in submission order is paired with the awaitable that yields the k-th
COMPLETED future.  Awaiting the k-th pair therefore observes the result or
exception of task `perm[k]` while logging and failure bookkeeping use the
identifier of task `k`. -/

/-- The `for query_id, thread_task in ids_and_tasks.items()` loop.  `ks` is
the list of remaining positions, the accumulator carries `results` (rows of
successfully awaited tasks, in completion order) and `failed_tasks_ids`.
When `pass2` is true the task behaves as on its second invocation.
Positions without a valid pairing are skipped; they cannot occur when `perm`
is a permutation of the task indices. -/
def collectGo (tasks : List QueryTask) (perm : List Nat) (pass2 : Bool) :
    List Nat → List Res × List String → List Res × List String
  | [], acc => acc
  | k :: ks, acc =>
    match (perm[k]?).bind (fun j => tasks[j]?) with
    | none => collectGo tasks perm pass2 ks acc
    | some t =>
      match (if pass2 then t.out2 else t.out1) with
      | .ok r => collectGo tasks perm pass2 ks (acc.1 ++ [r], acc.2)
      | _ =>
        collectGo tasks perm pass2 ks
          (acc.1, acc.2 ++ [((tasks[k]?).elim "" QueryTask.id)])

/-- Results in completion order plus recorded failed identifiers, for a batch
run with completion order `perm`. -/
def threadedCollect (tasks : List QueryTask) (perm : List Nat) (pass2 : Bool) :
    List Res × List String :=
  collectGo tasks perm pass2 (List.range tasks.length) ([], [])

/-- Python string comparison on char lists: lexicographic by code point. -/
def charListLt : List Char → List Char → Bool
  | [], [] => false
  | [], _ :: _ => true
  | _ :: _, [] => false
  | a :: as, b :: bs =>
    if a.toNat < b.toNat then true
    else if b.toNat < a.toNat then false
    else charListLt as bs

/-- Python `str.__lt__`: lexicographic comparison by code point. -/
def pyStrLt (a b : String) : Bool := charListLt a.data b.data

/-- Insert one `(identifier, rows)` pair into a list sorted ascending by
identifier, after any entry with an equal or smaller identifier.  Building
`sortPairs` from it by a left fold is a stable ascending sort, which is what
the Python builtin `sorted` guarantees (identifiers are unique dict keys, so
ties never reach the second tuple component). -/
def insertPair (x : String × Res) : List (String × Res) → List (String × Res)
  | [] => [x]
  | y :: ys => if pyStrLt x.1 y.1 then x :: y :: ys else y :: insertPair x ys

/-- `sorted(zip(thread_tasks, results))` on the pair list. -/
def sortPairs (l : List (String × Res)) : List (String × Res) :=
  l.foldl (fun acc x => insertPair x acc) []

/-- Line 464: `results = [result for _, result in sorted(zip(thread_tasks,
results))]`.  `zip` truncates to the shorter list, so when some tasks failed
only the first `results.length` identifiers (in submission order) are paired
with the completion-ordered results. -/
def sortByIds (ids : List String) (results : List Res) : List Res :=
  (sortPairs (ids.zip results)).map Prod.snd

/-- `query_tasks[failed_tasks_id]` dict lookup. -/
def lookupTask (tasks : List QueryTask) (qid : String) : Option QueryTask :=
  tasks.find? (fun t => t.id == qid)

/-- One pass of `_exec_queries_threaded` with `retry=False` (the shape of the
recursive call at lines 466-477): collect, sort, concatenate; an empty
result list yields the explicit empty frame. -/
def execThreadedNoRetry (tasks : List QueryTask) (perm : List Nat)
    (pass2 : Bool) : Res :=
  (sortByIds (tasks.map QueryTask.id) (threadedCollect tasks perm pass2).1).flatten

/-- `_exec_queries_threaded`: first pass with completion order `perm1`; when
`retry` is set and identifiers were recorded as failed, exactly those
identifiers are looked up and re-run once with `retry=False` (completion
order `perm2`, second-invocation behaviour), and a non-empty retry aggregate
is appended after the sorted primary batch; finally everything is
concatenated (`pd.concat(results, ignore_index=True)`), or the explicit
empty frame when nothing was collected. -/
def execQueriesThreaded (tasks : List QueryTask) (retry : Bool)
    (perm1 perm2 : List Nat) : Res :=
  let collected := threadedCollect tasks perm1 false
  let sorted := sortByIds (tasks.map QueryTask.id) collected.1
  if retry && !collected.2.isEmpty then
    let retryTasks := collected.2.filterMap (lookupTask tasks)
    let failedRows := execThreadedNoRetry retryTasks perm2 true
    (if !failedRows.isEmpty then sorted ++ [failedRows] else sorted).flatten
  else
    sorted.flatten

/-! ## Time-range splitter: `_calc_split_ranges` (lines 499-531)

Timestamps and deltas are nanosecond integers.  `pd.date_range(start, end,
freq=delta)` yields `start, start+delta, ...` up to the last point that is
at most `end`; it is empty when `end < start` or when the frequency is not
positive (pandas raises for a zero frequency, which a caller can only reach
with a zero-length parsed duration; the empty list makes the downstream
behaviour the same raised error, modelled below as `none`). -/

/-- `pd.date_range(start, end, freq=delta)` as nanosecond instants. -/
def date_range (start en delta : Int) : List Int :=
  if 0 < delta ∧ start ≤ en then
    (List.range (((en - start) / delta).toNat + 1)).map
      (fun k : Nat => start + (k : Int) * delta)
  else []

/-- Lines 506-516: `tee` the `date_range` iterator, advance the second copy,
zip, and subtract one nanosecond from each range end. -/
def split_pairs (start en delta : Int) : List (Int × Int) :=
  ((date_range start en delta).zip (date_range start en delta).tail).map
    (fun r => (r.1, r.2 - 1))

/-- `_calc_split_ranges`.  `ranges[-1]` on an empty list raises `IndexError`
(modelled as `none`).  The boundary correction compares against
`split_delta / 1000`, a `pd.Timedelta` divided by an int, i.e. integer
nanosecond division. -/
def calc_split_ranges (start en delta : Int) : Option (List (Int × Int)) :=
  match (split_pairs start en delta).getLast? with
  | none => none
  | some last =>
    if en - last.2 < delta / 1000 then
      some ((split_pairs start en delta).dropLast ++ [(last.1, en)])
    else
      some (split_pairs start en delta ++ [(last.2 + 1, en)])

/-! ## Duration parsing: `_create_split_queries` (lines 383-416)

`pd.Timedelta(split_by)` parsing is modelled for the `<integer><unit>` forms
relevant to split durations; pandas 2.x rejects the deprecated upper-case
hour unit `H`, which is why the source first rewrites a trailing `H` to `h`.
Python `str.strip`/`str.endswith`/`str.replace` are modelled at char-list
level. -/

/-- Whitespace for `str.strip`. -/
def pyIsSpace (c : Char) : Bool :=
  c == ' ' || c == '\t' || c == '\n' || c == '\r'

/-- Python `str.strip()`. -/
def pyStrip (s : String) : String :=
  String.mk (((s.data.dropWhile pyIsSpace).reverse.dropWhile pyIsSpace).reverse)

/-- Lines 393-394: `if split_by.strip().endswith("H"): split_by =
split_by.replace("H", "h")` — for the one-char suffix this is: when the last
stripped char is `H`, map every `H` to `h`. -/
def fixupH (s : String) : String :=
  if (pyStrip s).data.getLast? = some 'H' then
    String.mk (s.data.map (fun c => if c == 'H' then 'h' else c))
  else s

/-- Nanoseconds per `pd.Timedelta` unit abbreviation (`H` is absent: pandas
2.x raises `ValueError` for it). -/
def unitNs (u : String) : Option Int :=
  if u == "D" || u == "d" || u == "day" || u == "days" then some 86400000000000
  else if u == "h" || u == "hr" || u == "hour" || u == "hours" then some 3600000000000
  else if u == "min" || u == "m" || u == "minute" || u == "minutes" then some 60000000000
  else if u == "s" || u == "sec" || u == "second" || u == "seconds" then some 1000000000
  else if u == "ms" then some 1000000
  else if u == "us" then some 1000
  else if u == "ns" then some 1
  else none

/-- Digits of a decimal literal to a number. -/
def digitsToNat (l : List Char) : Nat :=
  l.foldl (fun acc c => acc * 10 + (c.toNat - 48)) 0

/-- Model of `pd.Timedelta(<string>)` for `<integer> <unit>` forms, in
nanoseconds; `none` models a raised `ValueError` (no leading number, or an
unknown unit). -/
def parseTimedelta (s : String) : Option Int :=
  let t := (pyStrip s).data
  let digits := t.takeWhile Char.isDigit
  let rest := (t.drop digits.length).dropWhile pyIsSpace
  if digits.isEmpty then none
  else (unitNs (String.mk rest)).map (fun u => (digitsToNat digits : Int) * u)

/-- `pd.Timedelta("1D")`, the fallback at line 397. -/
def nsPerDay : Int := 86400000000000

/-- Query parameters dict (`query_params`); keys are unique in a dict, and
values irrelevant to control flow are integers here. -/
abbrev Params := List (String × Int)

/-- `_create_split_queries`: parse the split duration (falling back to one
day when `pd.Timedelta` raises `ValueError`), compute the ranges, and build
the `{(q_start, q_end): query_source.create_query(...)}` dict in range
order.  `createQuery` stands for the opaque `query_source.create_query`
collaborator; `none` propagates the `IndexError` of `_calc_split_ranges`. -/
def create_split_queries (createQuery : Int → Int → Params → String)
    (query_params : Params) (start en : Int) (split_by : String) :
    Option (List ((Int × Int) × String)) :=
  (calc_split_ranges start en
      ((parseTimedelta (fixupH split_by)).getD nsPerDay)).map
    (fun ranges => ranges.map (fun r => (r, createQuery r.1 r.2 query_params)))

/-! ## Split-query dispatch: `_exec_split_query` (lines 238-333) -/

/-- What `_exec_split_query` hands back to its caller: `Python None`, the
debug transcript string, the rows of an executed dispatch, or a raised
exception propagating out. -/
inductive SplitResult where
  | noResult
  | transcript (s : String)
  | rows (r : Res)
  | crash
deriving DecidableEq, Repr

/-- `true` for the debug-transcript constructor. -/
def SplitResult.isTranscript : SplitResult → Bool
  | .transcript _ => true
  | _ => false

/-- `true` when queries were actually executed. -/
def SplitResult.isRows : SplitResult → Bool
  | .rows _ => true
  | _ => false

/-- Lines 300-303: `"\n\n".join(f"{start}-{end}\n{query}" ...)`. -/
def formatTranscript (sq : List ((Int × Int) × String)) : String :=
  String.intercalate "\n\n"
    (sq.map (fun e => toString e.1.1 ++ "-" ++ toString e.1.2 ++ "\n" ++ e.2))

/-- Lines 284-285: `query_params.pop("start", None)` and
`query_params.pop("end", None)` leave the dict without those two keys. -/
def popTimeBounds (ps : Params) : Params :=
  (ps.filter (fun kv => kv.1 != "start")).filter (fun kv => kv.1 != "end")

/-- `_exec_split_query`.  It first pops `start` and `end` from the caller's
`query_params` dict (the returned `Params` is the dict the caller is left
with), returns `None` when either is missing, computes the split queries,
and either returns the debug transcript or executes the tasks.  Task
building and execution (lines 305-333) are abstracted into the `runTasks`
capability: the debug and frame claims proved below hold for every
behaviour of that capability. -/
def execSplitQuery (runTasks : List ((Int × Int) × String) → Res)
    (createQuery : Int → Int → Params → String)
    (split_by : String) (query_params : Params) (debug : Bool) :
    SplitResult × Params :=
  let start? := query_params.lookup "start"
  let end? := query_params.lookup "end"
  let popped := popTimeBounds query_params
  match start?, end? with
  | some s, some e =>
    match create_split_queries createQuery popped s e split_by with
    | none => (.crash, popped)
    | some sq =>
      if debug then (.transcript (formatTranscript sq), popped)
      else (.rows (runTasks sq), popped)
  | _, _ => (.noResult, popped)

/-! ## Proof infrastructure for the splitter correctness statement -/

/-- The k-th generated range `(start + k*delta, start + (k+1)*delta - 1)`. -/
def rangeFun (start delta : Int) (k : Nat) : Int × Int :=
  (start + (k : Int) * delta, start + ((k : Int) + 1) * delta - 1)

/-- Shape of every successful `_calc_split_ranges` output: `n` whole chunks
followed by a final range ending exactly at `en`. -/
def rangeShape (start delta en : Int) (n : Nat) : List (Int × Int) :=
  (List.range n).map (rangeFun start delta) ++ [(start + (n : Int) * delta, en)]

/-! ## Claim C1 -/

/-- Claim C1: the claim states that the aggregate returned by the threaded
executor concatenates successful results ordered by ascending task
identifier regardless of completion order, making the output deterministic.
The code instead pairs submission-order identifiers with completion-order
results before sorting, so the same batch of two succeeding tasks yields
`[1, 2]` when they complete in submission order and `[2, 1]` when they
complete in the opposite order: the output depends on completion order. -/
theorem exec_queries_threaded_depends_on_completion_order :
    execQueriesThreaded [⟨"a", .ok [1], .ok [1]⟩, ⟨"b", .ok [2], .ok [2]⟩]
        false [0, 1] [] = [1, 2] ∧
    execQueriesThreaded [⟨"a", .ok [1], .ok [1]⟩, ⟨"b", .ok [2], .ok [2]⟩]
        false [1, 0] [] = [2, 1] ∧
    execQueriesThreaded [⟨"a", .ok [1], .ok [1]⟩, ⟨"b", .ok [2], .ok [2]⟩]
        false [0, 1] [] ≠
      execQueriesThreaded [⟨"a", .ok [1], .ok [1]⟩, ⟨"b", .ok [2], .ok [2]⟩]
        false [1, 0] [] := by
  refine ⟨by decide, by decide, by decide⟩

/-! ## Claim C3 -/

/-- Claim C3: the claim states that a chunk duration of at least the window
span produces exactly one range spanning the whole input.  On a one-hour
window with a one-day chunk, `pd.date_range` yields the single instant
`start`, the zipped pair list is empty, and `ranges[-1]` raises
`IndexError` (modelled as `none`): no range list is returned at all. -/
theorem calc_split_ranges_crashes_when_chunk_exceeds_span :
    calc_split_ranges 0 3600000000000 86400000000000 = none := by decide

/-! ## Claim C5 -/

/-- Claim C5: the claim states that when retry is enabled exactly the failed
tasks are re-run once.  With tasks `a` (succeeds, rows `[1]`) and `b`
(fails, would succeed on retry with rows `[2]`), and `b` completing first,
the failure is recorded under identifier `a` (the submission-order key
paired with the first completion), so the retry round re-runs the already
successful task `a` and the aggregate is `[1, 1]`: `a` is duplicated and
the rows of `b` are lost, instead of the claimed `[1, 2]`. -/
theorem exec_queries_threaded_retries_wrong_task :
    (threadedCollect [⟨"a", .ok [1], .ok [1]⟩, ⟨"b", .queryError, .ok [2]⟩]
        [1, 0] false).2 = ["a"] ∧
    execQueriesThreaded [⟨"a", .ok [1], .ok [1]⟩, ⟨"b", .queryError, .ok [2]⟩]
        true [1, 0] [0] = [1, 1] := by
  refine ⟨by decide, by decide⟩

/-! ## Claim C7 -/

/-- Claim C7: sequentially, a `MsticpyDataQueryError` from task `b` is
swallowed and `c` still runs (aggregate `[1, 3]`), while any other
exception from `b` propagates and aborts the dispatch — both as claimed.
In the threaded executor the exception is caught without aborting the
sibling (its rows `[1]` are still collected), but when the failing task
`b` completes first the identifier logged and marked failed is `a`, not the
identifier of the task that raised: the "logged and marked with the task
identifier" part of the claim does not hold. -/
theorem error_policy_sequential_vs_threaded :
    execSynchronousQueries [⟨"a", .ok [1], .ok [1]⟩,
        ⟨"b", .queryError, .queryError⟩, ⟨"c", .ok [3], .ok [3]⟩]
      = .ok [1, 3] ∧
    execSynchronousQueries [⟨"a", .ok [1], .ok [1]⟩,
        ⟨"b", .otherError, .otherError⟩, ⟨"c", .ok [3], .ok [3]⟩]
      = .error () ∧
    threadedCollect [⟨"a", .ok [1], .ok [1]⟩, ⟨"b", .otherError, .otherError⟩]
        [1, 0] false = ([[1]], ["a"]) := by
  refine ⟨rfl, rfl, by decide⟩

/-! ## Claim C8 -/

/-- Claim C8: the claim states that with zero failing tasks and identifiers
assigned in insertion order the threaded and sequential executors return
identical aggregates.  With identifiers `"0", "1"` (insertion order equals
ascending identifier order) and both tasks succeeding, the sequential
executor returns `[1, 2]` but the threaded executor returns `[2, 1]` when
the second task completes first, because the sort is applied to
completion-order results paired with submission-order identifiers. -/
theorem threaded_differs_from_sequential_on_reordering :
    execSynchronousQueries [⟨"0", .ok [1], .ok [1]⟩, ⟨"1", .ok [2], .ok [2]⟩]
      = .ok [1, 2] ∧
    execQueriesThreaded [⟨"0", .ok [1], .ok [1]⟩, ⟨"1", .ok [2], .ok [2]⟩]
        false [1, 0] [] = [2, 1] := by
  refine ⟨rfl, by decide⟩

/-! ## Claim C10 -/

/-- Claim C10: every call to `_exec_split_query` leaves the caller's
`query_params` equal to the dict with exactly the keys `start` and `end`
removed and every other key intact, on every path: the debug-transcript
path, the early `None` return when a bound is missing, the crash path and
the execution path alike. -/
theorem exec_split_query_removes_time_bounds
    (runTasks : List ((Int × Int) × String) → Res)
    (createQuery : Int → Int → Params → String)
    (split_by : String) (query_params : Params) (debug : Bool) :
    (execSplitQuery runTasks createQuery split_by query_params debug).2 =
      popTimeBounds query_params ∧
    popTimeBounds query_params =
      query_params.filter (fun kv => !(kv.1 == "start" || kv.1 == "end")) := by
  constructor
  · simp only [execSplitQuery]
    split
    · split
      · rfl
      · split <;> rfl
    · rfl
  · unfold popTimeBounds
    rw [List.filter_filter]
    congr 1
    funext kv
    cases h1 : kv.1 == "start" <;> cases h2 : kv.1 == "end" <;>
      simp [h1, h2, bne]

/-! ## Claim C4 -/

/-- Claim C4 (counterexample): the claim asserts that a debug call of
`_exec_split_query` has no side effects and that a repeat call from the same
caller state returns the same transcript.  Concretely, a debug call on a
params dict holding `start`, `end` and one other key returns a transcript
but hands back the dict without `start` and `end`; feeding that mutated dict
to the second call returns `None` instead of the transcript. -/
theorem exec_split_query_debug_mutates_params :
    (execSplitQuery (fun _ => [9]) (fun _ _ _ => "Q") "4h"
        [("start", (0 : Int)), ("end", 86400000000000), ("other", 7)]
        true).2 ≠
      [("start", (0 : Int)), ("end", 86400000000000), ("other", 7)] ∧
    (execSplitQuery (fun _ => [9]) (fun _ _ _ => "Q") "4h"
        [("start", (0 : Int)), ("end", 86400000000000), ("other", 7)]
        true).1.isTranscript = true ∧
    (execSplitQuery (fun _ => [9]) (fun _ _ _ => "Q") "4h"
        (execSplitQuery (fun _ => [9]) (fun _ _ _ => "Q") "4h"
          [("start", (0 : Int)), ("end", 86400000000000), ("other", 7)]
          true).2 true).1 = .noResult := by
  refine ⟨by decide, by decide, by decide⟩

/-- Claim C4 (amended): a debug call of `_exec_split_query` executes no
query — its outcome is independent of the execution capability and is never
an executed-rows result — so two debug calls made from equal caller states
return identical transcripts; however each call does have the side effect
of removing `start` and `end` from the caller's `query_params`. -/
theorem exec_split_query_debug_no_execution
    (runTasks runTasks' : List ((Int × Int) × String) → Res)
    (createQuery : Int → Int → Params → String)
    (split_by : String) (query_params : Params) :
    execSplitQuery runTasks createQuery split_by query_params true =
      execSplitQuery runTasks' createQuery split_by query_params true ∧
    (execSplitQuery runTasks createQuery split_by query_params
        true).1.isRows = false := by
  constructor
  · simp only [execSplitQuery]
    split
    · split <;> rfl
    · rfl
  · simp only [execSplitQuery]
    split
    · split <;> rfl
    · rfl

/-! ## Claim C9 -/

/-- Claim C9 (counterexample): the claim asserts that an unparsable chunk
duration never raises to the caller.  With the unparsable duration string
and a thirty-minute window, parsing does degrade to the one-day default,
but the range computation then raises `IndexError` (modelled `none`)
because the default chunk exceeds the window. -/
theorem create_split_queries_unparsable_still_crashes :
    parseTimedelta (fixupH "every-4-hours") = none ∧
    create_split_queries (fun _ _ _ => "Q") [] 0 1800000000000
      "every-4-hours" = none := by
  refine ⟨by decide, by decide⟩

/-- Claim C9 (amended): an unparsable chunk-duration string never causes a
parse error to surface: `_create_split_queries` degrades to the default
one-day duration and proceeds exactly as if the duration string had been
`"1D"` (so it can still fail downstream only in the cases where `"1D"`
itself would, namely when the window is shorter than the chunk). -/
theorem create_split_queries_default_on_unparsable
    (createQuery : Int → Int → Params → String) (query_params : Params)
    (start en : Int) (s : String)
    (h : parseTimedelta (fixupH s) = none) :
    create_split_queries createQuery query_params start en s =
      create_split_queries createQuery query_params start en "1D" := by
  have h1D : (parseTimedelta (fixupH "1D")).getD nsPerDay = nsPerDay := by
    decide
  unfold create_split_queries
  rw [h, h1D]
  rfl

/-- Witness for C9 at the concrete unparsable string `"xyz"`. -/
theorem create_split_queries_default_on_unparsable_witness :
    parseTimedelta (fixupH "xyz") = none ∧
    create_split_queries (fun _ _ _ => "q") [] 0 172800000000000 "xyz" =
      create_split_queries (fun _ _ _ => "q") [] 0 172800000000000 "1D" :=
  ⟨by decide,
    create_split_queries_default_on_unparsable _ _ _ _ _ (by decide)⟩

/-! ## Claim C6 -/

/-- When every task raises `MsticpyDataQueryError`, the sequential loop
keeps its accumulator unchanged and terminates normally. -/
theorem syncLoop_all_query_error (tasks : List QueryTask) :
    ∀ acc : List Res, (∀ t ∈ tasks, t.out1 = .queryError) →
      syncLoop tasks acc = .ok acc := by
  induction tasks with
  | nil => intro acc h; rfl
  | cons t ts ih =>
    intro acc h
    have ht : t.out1 = .queryError := h t (List.mem_cons_self t ts)
    simp only [syncLoop, ht]
    exact ih acc (fun u hu => h u (List.mem_cons_of_mem _ hu))

/-- When every completed task raises, the loop of the threaded executor
collects no results. -/
theorem collectGo_results_const (tasks : List QueryTask) (perm : List Nat)
    (pass2 : Bool)
    (h : ∀ t ∈ tasks, (if pass2 then t.out2 else t.out1).isFailure = true) :
    ∀ (ks : List Nat) (acc : List Res × List String),
      (collectGo tasks perm pass2 ks acc).1 = acc.1 := by
  intro ks
  induction ks with
  | nil => intro acc; rfl
  | cons k ks ih =>
    intro acc
    simp only [collectGo]
    split
    · exact ih acc
    · split
      · rename_i t heq q r hout
        have hmem : t ∈ tasks := by
          obtain ⟨j, hj, hjt2⟩ := Option.bind_eq_some.mp heq
          obtain ⟨hlt, h2⟩ := List.getElem?_eq_some.mp hjt2
          exact h2 ▸ List.getElem_mem hlt
        have hfail := h t hmem
        rw [hout] at hfail
        simp [QueryOutcome.isFailure] at hfail
      · exact ih _

/-- Sorting an empty result list against any identifier list is empty. -/
theorem sortByIds_nil (ids : List String) : sortByIds ids [] = [] := by
  simp [sortByIds, sortPairs, List.zip_nil_right]

/-- A retry-less threaded pass over tasks that all raise returns the
explicit empty aggregate. -/
theorem execThreadedNoRetry_all_fail (tasks : List QueryTask)
    (perm : List Nat) (pass2 : Bool)
    (h : ∀ t ∈ tasks, (if pass2 then t.out2 else t.out1).isFailure = true) :
    execThreadedNoRetry tasks perm pass2 = [] := by
  unfold execThreadedNoRetry threadedCollect
  rw [collectGo_results_const tasks perm pass2 h _ _, sortByIds_nil]
  rfl

/-- Claim C6: when every task in a batch fails — raising the recognized
`MsticpyDataQueryError` on the first run, and raising again (either way) if
re-invoked during a retry round — the sequential executor returns the
explicit empty result without propagating an exception, and the threaded
executor with retry enabled also returns the explicit empty result, for
every pair of completion orders. -/
theorem executors_return_empty_when_all_fail
    (tasks : List QueryTask) (perm1 perm2 : List Nat)
    (h1 : ∀ t ∈ tasks, t.out1 = .queryError)
    (h2 : ∀ t ∈ tasks, t.out2.isFailure = true) :
    execSynchronousQueries tasks = .ok [] ∧
    execQueriesThreaded tasks true perm1 perm2 = [] := by
  constructor
  · unfold execSynchronousQueries
    rw [syncLoop_all_query_error tasks [] h1]
    rfl
  · have hfail1 : ∀ t ∈ tasks,
        (if false then t.out2 else t.out1).isFailure = true := by
      intro t ht
      simp [h1 t ht, QueryOutcome.isFailure]
    have hres : (threadedCollect tasks perm1 false).1 = [] := by
      unfold threadedCollect
      exact collectGo_results_const tasks perm1 false hfail1 _ _
    have hsub : ∀ t ∈ (threadedCollect tasks perm1 false).2.filterMap
        (lookupTask tasks),
        (if true then t.out2 else t.out1).isFailure = true := by
      intro t ht
      obtain ⟨qid, hqid, hfind⟩ := List.mem_filterMap.mp ht
      have hmem : t ∈ tasks := List.mem_of_find?_eq_some hfind
      simp [h2 t hmem]
    have hrows := execThreadedNoRetry_all_fail _ perm2 true hsub
    simp only [execQueriesThreaded, hres, sortByIds_nil, hrows]
    split <;> simp

/-- Witness for C6: a concrete two-task batch in which every task raises,
with concrete completion orders for both passes. -/
theorem executors_return_empty_when_all_fail_witness :
    execSynchronousQueries [⟨"a", .queryError, .queryError⟩,
        ⟨"b", .queryError, .otherError⟩] = .ok [] ∧
    execQueriesThreaded [⟨"a", .queryError, .queryError⟩,
        ⟨"b", .queryError, .otherError⟩] true [1, 0] [0, 1] = [] :=
  executors_return_empty_when_all_fail
    [⟨"a", .queryError, .queryError⟩, ⟨"b", .queryError, .otherError⟩]
    [1, 0] [0, 1] (by decide) (by decide)

/-! ## Claim C2 -/

/-- Claim C2 (counterexample): the claim quantifies over every
`end > start` with a parsable chunk duration, but for a thirty-minute
window and the parsable one-hour chunk the splitter raises `IndexError`
(modelled `none`) instead of returning any ranges: `pd.date_range` yields
only the single instant `start`, so the zipped pair list is empty and
`ranges[-1]` is out of bounds. -/
theorem calc_split_ranges_crash_counterexample :
    parseTimedelta "1h" = some 3600000000000 ∧
    calc_split_ranges 0 1800000000000 3600000000000 = none := by
  refine ⟨by decide, by decide⟩

/-- Evaluated form of `split_pairs` under a positive delta on a non-empty
window: the k-th pair is `(start + k*delta, start + (k+1)*delta - 1)`. -/
theorem split_pairs_eq (start en delta : Int) (hpos : 0 < delta)
    (hle : start ≤ en) :
    split_pairs start en delta =
      (List.range ((en - start) / delta).toNat).map (rangeFun start delta) := by
  have hdr : date_range start en delta =
      (List.range (((en - start) / delta).toNat + 1)).map
        (fun k : Nat => start + (k : Int) * delta) := by
    unfold date_range
    rw [if_pos ⟨hpos, hle⟩]
  unfold split_pairs
  rw [hdr]
  apply List.ext_getElem
  · simp [List.length_zip]
  · intro i hi1 hi2
    simp only [List.getElem_map, List.getElem_zip, List.getElem_tail,
      List.getElem_range, rangeFun, Prod.mk.injEq]
    refine ⟨trivial, ?_⟩
    push_cast
    ring

/-- `getLast?` of a map over an initial segment of the naturals. -/
theorem getLast_map_range {α : Type} (f : Nat → α) (n : Nat) :
    ((List.range (n + 1)).map f).getLast? = some (f n) := by
  rw [List.range_succ, List.map_append]
  simp

/-- `dropLast` of a map over an initial segment of the naturals. -/
theorem dropLast_map_range {α : Type} (f : Nat → α) (n : Nat) :
    ((List.range (n + 1)).map f).dropLast = (List.range n).map f := by
  rw [List.range_succ, List.map_append]
  simp

/-- Every list of the `rangeShape` form — whole chunks followed by a final
range ending at `en` — is a non-empty, contiguous, ordered partition whose
first range starts at `start` and whose last range ends at `en`. -/
theorem rangeShape_spec (start delta en : Int) (hd : 1 ≤ delta) (n : Nat)
    (hn : start + (n : Int) * delta ≤ en) :
    rangeShape start delta en n ≠ [] ∧
    (rangeShape start delta en n).head?.map Prod.fst = some start ∧
    (rangeShape start delta en n).getLast?.map Prod.snd = some en ∧
    List.Chain' (fun a b => b.1 = a.2 + 1) (rangeShape start delta en n) ∧
    ∀ r ∈ rangeShape start delta en n, r.1 ≤ r.2 := by
  refine ⟨?_, ?_, ?_, ?_, ?_⟩
  · simp [rangeShape]
  · cases n with
    | zero => simp [rangeShape, rangeFun]
    | succ m =>
      rw [rangeShape, List.range_succ_eq_map]
      simp [rangeFun]
  · simp [rangeShape]
  · rw [rangeShape]
    refine List.chain'_append.mpr ⟨?_, List.chain'_singleton _, ?_⟩
    · rw [List.chain'_map]
      cases n with
      | zero => simp
      | succ m =>
        rw [List.chain'_range_succ]
        intro i hi
        simp only [rangeFun]
        push_cast
        ring
    · intro x hx y hy
      cases n with
      | zero => simp at hx
      | succ m =>
        rw [getLast_map_range] at hx
        simp only [Option.mem_def, Option.some.injEq] at hx
        simp only [List.head?_cons, Option.mem_def, Option.some.injEq] at hy
        subst hx
        subst hy
        simp only [rangeFun]
        push_cast
        ring
  · intro r hr
    rw [rangeShape] at hr
    rcases List.mem_append.mp hr with hmem | hmem
    · obtain ⟨k, hk, rfl⟩ := List.mem_map.mp hmem
      simp only [rangeFun]
      have hk1 : ((k : Int) + 1) * delta = (k : Int) * delta + delta := by ring
      linarith
    · simp only [List.mem_singleton] at hmem
      subst hmem
      simpa using hn

/-- Claim C2 (amended): for every `(start, end, delta)` with a positive
chunk `delta` that is at most the window span `end - start` (the
restriction forced by the counterexample above — for a larger chunk the
code raises instead of returning), `_calc_split_ranges` returns a
non-empty range list whose first range starts exactly at `start`, whose
last range ends exactly at `end`, and in which each subsequent range
begins exactly one nanosecond after the previous range ends; with every
range well-formed (`fst ≤ snd`), this makes the ranges ordered, pairwise
non-overlapping and contiguous, with union span `[start, end]`. -/
theorem calc_split_ranges_contiguous_partition (start en delta : Int)
    (h1 : 1 ≤ delta) (h2 : delta ≤ en - start) :
    ∃ rs, calc_split_ranges start en delta = some rs ∧ rs ≠ [] ∧
      rs.head?.map Prod.fst = some start ∧
      rs.getLast?.map Prod.snd = some en ∧
      List.Chain' (fun a b => b.1 = a.2 + 1) rs ∧
      ∀ r ∈ rs, r.1 ≤ r.2 := by
  have hpos : 0 < delta := by linarith
  have hle : start ≤ en := by linarith
  have hq0 : 0 ≤ (en - start) / delta :=
    Int.ediv_nonneg (by linarith) (by linarith)
  have hq1 : 1 ≤ (en - start) / delta := by
    rw [Int.le_ediv_iff_mul_le hpos]
    linarith
  obtain ⟨m, hm⟩ : ∃ m, ((en - start) / delta).toNat = m + 1 := by
    refine ⟨((en - start) / delta).toNat - 1, ?_⟩
    omega
  have hcast : ((m + 1 : Nat) : Int) = (en - start) / delta := by
    rw [← hm]
    exact Int.toNat_of_nonneg hq0
  have hmul : ((m + 1 : Nat) : Int) * delta ≤ en - start := by
    rw [hcast]
    exact Int.ediv_mul_le _ (by linarith)
  have hpairs := split_pairs_eq start en delta hpos hle
  rw [hm] at hpairs
  have hlast : (split_pairs start en delta).getLast? =
      some (rangeFun start delta m) := by
    rw [hpairs]
    exact getLast_map_range _ m
  have hred : calc_split_ranges start en delta =
      if en - (rangeFun start delta m).2 < delta / 1000 then
        some ((split_pairs start en delta).dropLast ++
          [((rangeFun start delta m).1, en)])
      else
        some (split_pairs start en delta ++
          [((rangeFun start delta m).2 + 1, en)]) := by
    unfold calc_split_ranges
    rw [hlast]
  have hmono : ((m : Nat) : Int) * delta ≤ ((m + 1 : Nat) : Int) * delta := by
    apply mul_le_mul_of_nonneg_right
    · exact_mod_cast Nat.le_succ m
    · linarith
  rw [hred]
  by_cases hc : en - (rangeFun start delta m).2 < delta / 1000
  · rw [if_pos hc, hpairs, dropLast_map_range]
    refine ⟨_, rfl, ?_⟩
    exact rangeShape_spec start delta en h1 m (by linarith)
  · rw [if_neg hc, hpairs]
    have hsc : (rangeFun start delta m).2 + 1 =
        start + ((m + 1 : Nat) : Int) * delta := by
      unfold rangeFun
      push_cast
      ring
    rw [hsc]
    refine ⟨_, rfl, ?_⟩
    exact rangeShape_spec start delta en h1 (m + 1) (by linarith)

/-- Witness for C2 at the concrete input `(0, 10, 3)`, whose output is the
partition `[(0,2), (3,5), (6,8), (9,10)]`. -/
theorem calc_split_ranges_contiguous_partition_witness :
    (1 : Int) ≤ 3 ∧ (3 : Int) ≤ 10 - 0 ∧
    (∃ rs, calc_split_ranges 0 10 3 = some rs ∧ rs ≠ [] ∧
      rs.head?.map Prod.fst = some 0 ∧
      rs.getLast?.map Prod.snd = some 10 ∧
      List.Chain' (fun a b => b.1 = a.2 + 1) rs ∧
      ∀ r ∈ rs, r.1 ≤ r.2) :=
  ⟨by decide, by decide,
    calc_split_ranges_contiguous_partition 0 10 3 (by decide) (by decide)⟩
